import Mathlib

/-!
Verification development for the request-orchestration core of the
`immanencer/shadowbot` repository (files `src/xHandler.js`,
`src/modules/xHandler/TwitterService.js`, `src/modules/xHandler/Polling.js`).

The JavaScript code is shallowly embedded: each definition below is a direct
translation of the corresponding source function, with JavaScript `Date`
values restricted to the fields the code reads (`getDate()` the day of month,
`getMonth()` the zero-based month number, plus the year for distinguishing
dates), numbers as `Nat`/`Int`, and the two quota-ratio fields as exact
fractions denoting the IEEE-754 doubles `0.2` and `0.8` stored by the
constructor (`0.2` is the double `3602879701896397 / 2^54`, `0.8` is
`3602879701896397 / 2^52`).  `Math.floor` of the nonnegative products
`limit * ratio` is Nat division of `limit * numerator` by the denominator; at
the configured limit `100` this yields `20` and `80`, the same values
JavaScript computes (the float multiplication rounds those products to
exactly `20.0` and `80.0`).
-/

/-- A calendar instant as far as `resetCountersIfNeeded` can observe it:
`day` is JavaScript `Date.getDate()` (day of month, 1..31) and `month` is
`Date.getMonth()` (0..11); `year` is carried to tell dates apart. -/
structure SDate where
  year : Int
  month : Int
  day : Int
deriving DecidableEq, Repr

/-- An exact binary fraction standing for an IEEE-754 double in `[0, 1]`,
as stored in the `dailyPostRatio` / `dailyReplyRatio` fields. -/
structure DoubleFrac where
  num : Nat
  den : Nat
deriving DecidableEq, Repr

/-- Exact fraction of the IEEE-754 double literal `0.2`
(`3602879701896397 / 2^54`). -/
def doubleZeroPointTwo : DoubleFrac := ⟨3602879701896397, 18014398509481984⟩

/-- Exact fraction of the IEEE-754 double literal `0.8`
(`3602879701896397 / 2^52`). -/
def doubleZeroPointEight : DoubleFrac := ⟨3602879701896397, 4503599627370496⟩

/-- The quota-relevant fields of a `TwitterService` instance
(`src/modules/xHandler/TwitterService.js`, constructor lines 28-47). -/
structure QuotaState where
  dailyPosts : Nat
  monthlyReads : Nat
  dailyPostLimit : Nat
  monthlyReadLimit : Nat
  lastDailyReset : SDate
  lastMonthlyReset : SDate
  dailyPostsUsed : Nat
  dailyRepliesUsed : Nat
  dailyPostRatio : DoubleFrac
  dailyReplyRatio : DoubleFrac
deriving DecidableEq, Repr

/-- The constructor's initial quota fields, with `d0` the construction date
(`this.lastDailyReset = new Date()` and likewise for the monthly reset). -/
def initialQuotaState (d0 : SDate) : QuotaState where
  dailyPosts := 0
  monthlyReads := 0
  dailyPostLimit := 100
  monthlyReadLimit := 100
  lastDailyReset := d0
  lastMonthlyReset := d0
  dailyPostsUsed := 0
  dailyRepliesUsed := 0
  dailyPostRatio := doubleZeroPointTwo
  dailyReplyRatio := doubleZeroPointEight

/-- `TwitterService.resetCountersIfNeeded` (TwitterService.js lines 139-151):
zero the daily counters when `now.getDate() !== this.lastDailyReset.getDate()`,
then zero the monthly read counter when
`now.getMonth() !== this.lastMonthlyReset.getMonth()`. -/
def resetCountersIfNeeded (s : QuotaState) (now : SDate) : QuotaState :=
  let s1 :=
    if now.day ≠ s.lastDailyReset.day then
      { s with dailyPosts := 0, dailyPostsUsed := 0, dailyRepliesUsed := 0,
               lastDailyReset := now }
    else s
  if now.month ≠ s1.lastMonthlyReset.month then
    { s1 with monthlyReads := 0, lastMonthlyReset := now }
  else s1

/-- `Math.floor(this.dailyPostLimit * this.dailyPostRatio)`
(TwitterService.js line 177), as Nat division of the exact product.  At the
configured values (`100` and the double `0.2`) this is `20`, the value
JavaScript computes. -/
def maxDailyPosts (s : QuotaState) : Nat :=
  s.dailyPostLimit * s.dailyPostRatio.num / s.dailyPostRatio.den

/-- `Math.floor(this.dailyPostLimit * this.dailyReplyRatio)`
(TwitterService.js line 240); `80` at the configured values. -/
def maxDailyReplies (s : QuotaState) : Nat :=
  s.dailyPostLimit * s.dailyReplyRatio.num / s.dailyReplyRatio.den

/-- Observable outcome of one `postTweet` / `replyToTweet` call, as far as the
quota machinery is concerned. -/
inductive QuotaOutcome
  | rejectedDailyLimit
  | rejectedRatio
  | succeeded
  | failedNull
deriving DecidableEq, Repr

/-- `TwitterService.postTweet` (TwitterService.js lines 171-216), text-content
path, restricted to its effect on the quota fields: it first runs
`resetCountersIfNeeded`, rejects when `dailyPosts >= dailyPostLimit`, then
rejects when `dailyPostsUsed >= Math.floor(dailyPostLimit * dailyPostRatio)`;
the remaining body posts the tweet and stores it in MongoDB but touches no
quota counter (`apiOk` abstracts whether the network call succeeds; the
`catch` branch returns `null`). -/
def postTweet (s : QuotaState) (now : SDate) (apiOk : Bool) :
    QuotaOutcome × QuotaState :=
  let s1 := resetCountersIfNeeded s now
  if s1.dailyPosts ≥ s1.dailyPostLimit then (.rejectedDailyLimit, s1)
  else if s1.dailyPostsUsed ≥ maxDailyPosts s1 then (.rejectedRatio, s1)
  else if apiOk then (.succeeded, s1)
  else (.failedNull, s1)

/-- `TwitterService.replyToTweet` (TwitterService.js lines 239-281), text path,
restricted to its quota effect: note that it does NOT call
`resetCountersIfNeeded`; it rejects when
`dailyRepliesUsed >= Math.floor(dailyPostLimit * dailyReplyRatio)` and on a
successful reply increments `dailyRepliesUsed` (line 271). -/
def replyToTweet (s : QuotaState) (apiOk : Bool) : QuotaOutcome × QuotaState :=
  if s.dailyRepliesUsed ≥ maxDailyReplies s then (.rejectedRatio, s)
  else if apiOk then (.succeeded, { s with dailyRepliesUsed := s.dailyRepliesUsed + 1 })
  else (.failedNull, s)

/-- `n` consecutive `postTweet` calls whose network calls all succeed,
threading the quota state. -/
def iteratePostTweet (now : SDate) : Nat → QuotaState → List QuotaOutcome × QuotaState
  | 0, s => ([], s)
  | n + 1, s =>
      let r := postTweet s now true
      let rest := iteratePostTweet now n r.2
      (r.1 :: rest.1, rest.2)

example :
    maxDailyPosts (initialQuotaState ⟨2025, 0, 1⟩) = 20 := by decide

example :
    maxDailyReplies (initialQuotaState ⟨2025, 0, 1⟩) = 80 := by decide

/-! ## `TwitterService.retryFetch` (TwitterService.js lines 399-445)

One network attempt either returns a value, or throws an error object.  The
code inspects `error.code` and `error.rateLimit`; `FetchOutcome` enumerates
the cases the code distinguishes.  The `reset` field of `error.rateLimit` is
an epoch time in seconds (the code multiplies it by 1000). -/

/-- Result of one invocation of the `fetchFunction` passed to `retryFetch`. -/
inductive FetchOutcome
  | ok (v : Nat)
  | rateLimited (resetSec : Int)
  | rateLimitedBare (hasHeaders : Bool)
  | other (code : Int)
deriving DecidableEq, Repr

/-- An exception escaping `retryFetch`: either a re-thrown fetch error
(`throw lastError`), or the `TypeError` raised when the bare-429 branch reads
`this.rateLimitManager`, a property that is never assigned anywhere on
`TwitterService` (the constructor, lines 28-47, does not set it, and no other
code writes it), so it is `undefined` and both
`this.rateLimitManager.updateLimits(...)` (line 433) and
`this.rateLimitManager.shouldThrottle('tweets')` (line 435) throw. -/
inductive JsRaised
  | fetchError (o : FetchOutcome)
  | typeErrorUndefinedRateLimitManager
deriving DecidableEq, Repr

/-- Completion of a `retryFetch` call: a returned value, a raised exception,
or the `undefined` a zero-iteration loop would return. -/
inductive RetryResult
  | success (v : Nat)
  | raised (e : JsRaised)
  | undefinedReturn
deriving DecidableEq, Repr

/-- Loop body of `retryFetch`, by recursion on the number `r` of remaining
iterations (`i = maxRetries - r` is the current loop index, `t` the current
clock in epoch milliseconds, `acc` the reversed list of attempt start times).
Per iteration the code calls `fetchFunction` once, and on error:
  * `code === 429` with `rateLimit`: compute
    `waitTime = rateLimit.reset * 1000 - Date.now() + 1000`; if
    `i < maxRetries - 1`, sleep `waitTime` and `continue`, else fall through
    to `throw lastError`;
  * `code === 429` without `rateLimit`: the branch at lines 430-439 reads
    `this.rateLimitManager`, which is `undefined`, so a `TypeError` is raised
    (at `updateLimits` when response headers are present, at `shouldThrottle`
    otherwise) and propagates out of `retryFetch`;
  * any other error: `throw lastError` at once. -/
def retryFetchGo (script : Nat → FetchOutcome) (maxRetries : Nat) :
    Nat → Int → List Int → List Int × RetryResult
  | 0, _, acc => (acc.reverse, .undefinedReturn)
  | r + 1, t, acc =>
      let i := maxRetries - (r + 1)
      let acc1 := t :: acc
      match script i with
      | .ok v => (acc1.reverse, .success v)
      | .rateLimited resetSec =>
          let resetTime := resetSec * 1000
          let waitTime := resetTime - t + 1000
          if i < maxRetries - 1 then
            retryFetchGo script maxRetries r (t + waitTime) acc1
          else
            (acc1.reverse, .raised (.fetchError (.rateLimited resetSec)))
      | .rateLimitedBare _ =>
          (acc1.reverse, .raised .typeErrorUndefinedRateLimitManager)
      | .other c => (acc1.reverse, .raised (.fetchError (.other c)))

/-- `TwitterService.retryFetch(fetchFunction, maxRetries = 3)` started at
clock `t0`; `script i` gives the outcome of the attempt made at loop index
`i`.  Returns the list of attempt start times and the completion. -/
def retryFetch (script : Nat → FetchOutcome) (maxRetries : Nat) (t0 : Int) :
    List Int × RetryResult :=
  retryFetchGo script maxRetries maxRetries t0 []

/-! ## `pollMentionsAndReplies` inner `poll` (Polling.js lines 3-26)

Each cycle starts with `let timeout = 60000`; on an error carrying
`error.rateLimit?.reset` (truthy, i.e. a nonzero reset), the timeout becomes
`error.rateLimit.reset * 1000 - Date.now()`; the `finally` block always runs
`setTimeout(poll, timeout)`. -/

/-- The error observed by a poll cycle: `none` when the cycle succeeds, or
the optional `rateLimit.reset` seconds value carried by the thrown error. -/
structure PollCycleError where
  rateLimitReset : Option Int
deriving DecidableEq, Repr

/-- The delay scheduled by the `finally` of `poll` (Polling.js lines 5-21),
given the cycle's error (if any) and the clock `now` at the `catch`. -/
def pollNextTimeout (err : Option PollCycleError) (now : Int) : Int :=
  match err with
  | none => 60000
  | some e =>
      match e.rateLimitReset with
      | some resetSec => if resetSec ≠ 0 then resetSec * 1000 - now else 60000
      | none => 60000

/-! ## `setupPolling` in TwitterService.js (lines 562-582)

`let error = null` is declared before the `try`; the `catch` assigns it; the
`finally` computes `nextInterval = error?.code === 429 ?
Math.min(service.pollingInterval * 2, 3600000) : service.pollingInterval` and
always schedules.  `service.pollingInterval` is assigned `3600000` in the
constructor (line 31) and never written again in the module, so every cycle
reads the same value. -/

/-- `this.pollingInterval` as set by the `TwitterService` constructor and
never reassigned. -/
def servicePollingInterval : Nat := 3600000

/-- The `nextInterval` computed by the `finally` of `setupPolling`
(TwitterService.js lines 575-578): double the service's polling interval,
capped at 3600000 ms, when the cycle's error has `code === 429`; otherwise
the service's polling interval. -/
def setupPollingNextInterval (pollingInterval : Nat) (errCode : Option Int) : Nat :=
  if errCode = some 429 then min (pollingInterval * 2) 3600000
  else pollingInterval

/-- The interval scheduled after the `k`-th consecutive throttled
`setupPolling` cycle (every cycle errors with `code === 429`).  Because
`service.pollingInterval` is never mutated, each cycle computes its interval
from the same stored value. -/
def throttledScheduleSeq (_k : Nat) : Nat :=
  setupPollingNextInterval servicePollingInterval (some 429)

/-! ## `setupPolling` in xHandler.js (lines 503-516)

Here no `error` binding exists outside the `catch (error)` clause: xHandler.js
is an ES module (strict mode), the catch parameter is scoped to the catch
block, and the module declares no other `error` variable.  The `finally`
block nevertheless evaluates `error?.code === 429`, which is a reference to
an undeclared identifier and raises a `ReferenceError` before the
`setTimeout` call is reached; the exception then propagates out of
`setupPolling`. -/

/-- What one invocation of a `setupPolling` variant produces: the delay
passed to `setTimeout` if that call is reached, and whether a
`ReferenceError` escapes the function. -/
structure SetupPollingRun where
  scheduledDelay : Option Nat
  escapedReferenceError : Bool
deriving DecidableEq, Repr

/-- Shared semantics of the two `setupPolling` `finally` blocks.
`errorDeclared` records whether an `error` binding is in scope inside the
`finally` block; `errCode` is the `code` of the cycle's error (`none` when
the cycle succeeded or the error has no `code`).  When `error` is in scope,
the block computes `nextInterval` and reaches `setTimeout`; when it is not,
evaluating `error?.code` raises a `ReferenceError` and `setTimeout` is never
reached. -/
def setupPollingFinally (errorDeclared : Bool) (errCode : Option Int)
    (pollingInterval : Nat) : SetupPollingRun :=
  if errorDeclared then
    { scheduledDelay := some (setupPollingNextInterval pollingInterval errCode),
      escapedReferenceError := false }
  else
    { scheduledDelay := none, escapedReferenceError := true }

/-- xHandler.js `setupPolling` (lines 503-516): the only `error` binding in
the module is the parameter of `catch (error)`, whose scope is the catch
block alone, so inside the `finally` block the identifier `error` is
undeclared (`errorDeclared = false`).  `service.pollingInterval` is `3600000`
(xHandler.js line 156, never reassigned). -/
def setupPollingXHandler (errCode : Option Int) : SetupPollingRun :=
  setupPollingFinally false errCode servicePollingInterval

/-- TwitterService.js `setupPolling` (lines 562-582): `let error = null` is
declared at function scope before the `try`, so the `finally` block sees it
(`errorDeclared = true`). -/
def setupPollingTwitterService (errCode : Option Int) : SetupPollingRun :=
  setupPollingFinally true errCode servicePollingInterval

/-! ## `RateLimitManager.executeWithRateLimit` (xHandler.js lines 98-150)

Promises are modelled by identifiers.  `this.queues` maps an endpoint to a
stored promise id; `Promise.resolve()` creates a fresh, already-settled
promise.  `submit` performs exactly what lines 114-121 do: initialize the
map entry to `Promise.resolve()` when absent, read the stored promise, and
build the `.then(...)` chain — a fresh promise that settles only when the
submitted operation settles.  The code never stores that chained promise
back into `this.queues`. -/

/-- State of a `RateLimitManager`'s queue map, with promises as numeric ids:
`queues` is the association list behind `this.queues`, `settledNow` lists the
ids of promises already settled at submission time (the
`Promise.resolve()` placeholders), `nextId` supplies fresh ids. -/
structure EQState where
  queues : List (String × Nat)
  settledNow : List Nat
  nextId : Nat
deriving DecidableEq, Repr

/-- Association-list lookup for the queue map. -/
def eqLookup : List (String × Nat) → String → Option Nat
  | [], _ => none
  | (k, v) :: rest, key => if k = key then some v else eqLookup rest key

/-- What one `executeWithRateLimit(endpoint, op)` submission yields:
`awaited` is the promise the chained task waits on before `op` can start
(`this.queues.get(endpoint)` at line 121), `chained` is the promise returned
by `.then(...)`, which settles exactly when `op` settles. -/
structure SubmitInfo where
  awaited : Nat
  chained : Nat
deriving DecidableEq, Repr

/-- `executeWithRateLimit` submission step (xHandler.js lines 114-121):
if the endpoint has no queue entry, store a fresh resolved promise
(`this.queues.set(endpoint, Promise.resolve())`); then chain the operation on
the stored promise with `.then(...)`.  The resulting chained promise is
returned to the caller but never written back into `this.queues`. -/
def submitEWRL (s : EQState) (endpoint : String) : SubmitInfo × EQState :=
  let s1 :=
    match eqLookup s.queues endpoint with
    | some _ => s
    | none =>
        { queues := (endpoint, s.nextId) :: s.queues,
          settledNow := s.nextId :: s.settledNow,
          nextId := s.nextId + 1 }
  let awaited := (eqLookup s1.queues endpoint).getD 0
  (⟨awaited, s1.nextId⟩, { s1 with nextId := s1.nextId + 1 })

/-- The `EQState` before any submission: empty queue map, no promises. -/
def emptyEQState : EQState := ⟨[], [], 0⟩


/-- A quota-gated call was rejected locally (returned `null` after a limit
log) rather than attempted over the network. -/
def quotaRejected : QuotaOutcome → Bool
  | .rejectedDailyLimit => true
  | .rejectedRatio => true
  | .succeeded => false
  | .failedNull => false

/-! ## Helper lemmas -/

/-- `resetCountersIfNeeded` never changes the configuration fields. -/
lemma resetCounters_config (s : QuotaState) (now : SDate) :
    (resetCountersIfNeeded s now).dailyPostLimit = s.dailyPostLimit ∧
    (resetCountersIfNeeded s now).dailyPostRatio = s.dailyPostRatio ∧
    (resetCountersIfNeeded s now).dailyReplyRatio = s.dailyReplyRatio := by
  simp only [resetCountersIfNeeded]
  split_ifs <;> simp

/-- On a call whose date has the same day-of-month as the last daily reset,
`resetCountersIfNeeded` leaves every daily field unchanged. -/
lemma resetCounters_sameDay (s : QuotaState) (now : SDate)
    (hday : now.day = s.lastDailyReset.day) :
    (resetCountersIfNeeded s now).dailyPosts = s.dailyPosts ∧
    (resetCountersIfNeeded s now).dailyPostsUsed = s.dailyPostsUsed ∧
    (resetCountersIfNeeded s now).dailyRepliesUsed = s.dailyRepliesUsed ∧
    (resetCountersIfNeeded s now).lastDailyReset = s.lastDailyReset := by
  simp only [resetCountersIfNeeded]
  split_ifs <;> simp_all

/-- On a call whose date also has the same month number as the last monthly
reset, `resetCountersIfNeeded` is the identity. -/
lemma resetCounters_sameDayMonth (s : QuotaState) (now : SDate)
    (hday : now.day = s.lastDailyReset.day)
    (hmonth : now.month = s.lastMonthlyReset.month) :
    resetCountersIfNeeded s now = s := by
  simp only [resetCountersIfNeeded]
  split_ifs <;> simp_all

/-! ## Claim theorems: quota tracking -/

/-- Claim C4: for each sub-category (new post or reply), once exactly
`floor(D * ratio)` uses of that sub-category have been recorded within the
current calendar day (`D` the daily post limit, `ratio` that sub-category's
configured ratio), the next reservation check for that sub-category returns
not-allowed, regardless of the other sub-category's usage (the state is
otherwise arbitrary), as long as the calendar day has not advanced (same
day-of-month as the last daily reset). -/
theorem subcategory_cap_blocks_next_reservation
    (s : QuotaState) (now : SDate) (apiOk : Bool)
    (hday : now.day = s.lastDailyReset.day) :
    (s.dailyPostsUsed = maxDailyPosts s →
      quotaRejected (postTweet s now apiOk).1 = true) ∧
    (s.dailyRepliesUsed = maxDailyReplies s →
      quotaRejected (replyToTweet s apiOk).1 = true) := by
  constructor
  · intro hused
    obtain ⟨hlim, hpr, _⟩ := resetCounters_config s now
    obtain ⟨_, hpu, _, _⟩ := resetCounters_sameDay s now hday
    unfold postTweet
    by_cases h1 :
        (resetCountersIfNeeded s now).dailyPosts ≥
          (resetCountersIfNeeded s now).dailyPostLimit
    · simp [h1, quotaRejected]
    · have h2 :
          (resetCountersIfNeeded s now).dailyPostsUsed ≥
            maxDailyPosts (resetCountersIfNeeded s now) := by
        unfold maxDailyPosts
        rw [hpu, hused, hlim, hpr]
        exact le_refl _
      simp [h1, h2, quotaRejected]
  · intro hused
    unfold replyToTweet
    simp [hused, quotaRejected]

/-- Witness for C4: with the constructor's configuration (`D = 100`, post
ratio the double `0.2`, reply ratio the double `0.8`), a same-day state with
`dailyPostsUsed = 20` and `dailyRepliesUsed = 80` has both a post and a reply
reservation rejected, whatever the other counters hold. -/
theorem subcategory_cap_blocks_next_reservation_witness :
    quotaRejected (postTweet
      { initialQuotaState ⟨2025, 0, 15⟩ with
          dailyPosts := 3, monthlyReads := 7,
          dailyPostsUsed := 20, dailyRepliesUsed := 80 }
      ⟨2025, 0, 15⟩ true).1 = true ∧
    quotaRejected (replyToTweet
      { initialQuotaState ⟨2025, 0, 15⟩ with
          dailyPosts := 3, monthlyReads := 7,
          dailyPostsUsed := 20, dailyRepliesUsed := 80 } true).1 = true := by
  have h := subcategory_cap_blocks_next_reservation
    { initialQuotaState ⟨2025, 0, 15⟩ with
        dailyPosts := 3, monthlyReads := 7,
        dailyPostsUsed := 20, dailyRepliesUsed := 80 }
    ⟨2025, 0, 15⟩ true rfl
  exact ⟨h.1 (by decide), h.2 (by decide)⟩

/-- Claim C5, counterexample: the claim that the boundary reset runs before
EVERY quota check, so that all daily counters read zero at the first check
after a calendar-day rollover, is false on two concrete runs.
(1) `replyToTweet` performs its quota check without calling
`resetCountersIfNeeded`: a service built on January 1 with
`dailyRepliesUsed = 80` still rejects a reply on any later date — the model's
`replyToTweet` takes no date at all, faithfully to the code, and its check
reads the stale counter `80`, not `0`.
(2) even a check that does reset (`postTweet`) misses a rollover of exactly
one calendar month: with `lastDailyReset` on January 15 and the check on
February 15 the day-of-month coincides, so `dailyPostsUsed = 20` is kept and
the post is rejected although the claim promises the counter reads zero. -/
theorem reply_check_skips_boundary_reset_cex :
    (replyToTweet
      { initialQuotaState ⟨2025, 0, 1⟩ with dailyRepliesUsed := 80 }
      true).1 = QuotaOutcome.rejectedRatio ∧
    (replyToTweet
      { initialQuotaState ⟨2025, 0, 1⟩ with dailyRepliesUsed := 80 }
      true).2.dailyRepliesUsed = 80 ∧
    (postTweet
      { initialQuotaState ⟨2025, 0, 15⟩ with dailyPostsUsed := 20 }
      ⟨2025, 1, 15⟩ true).1 = QuotaOutcome.rejectedRatio := by
  refine ⟨?_, ?_, ?_⟩ <;> decide

/-- Claim C5 as amended: the boundary-reset step is invoked before the quota
checks of `postTweet` (and `postImage` / `fetchRelevantPosts`) but not before
`replyToTweet`'s, and it detects a rollover only when the day-of-month
changes; for a pair of quota-gated operations separated by a rollover that
changes the day-of-month, where the second operation is one that invokes the
reset, all daily counters (total posts, posts used, replies used) read zero
at the second operation's check, even if no call happened at the boundary
instant. -/
theorem boundary_reset_zeroes_daily_counters
    (s : QuotaState) (now : SDate)
    (hday : now.day ≠ s.lastDailyReset.day) :
    (resetCountersIfNeeded s now).dailyPosts = 0 ∧
    (resetCountersIfNeeded s now).dailyPostsUsed = 0 ∧
    (resetCountersIfNeeded s now).dailyRepliesUsed = 0 ∧
    (postTweet s now true).2.dailyPosts = 0 ∧
    (postTweet s now true).2.dailyPostsUsed = 0 ∧
    (postTweet s now true).2.dailyRepliesUsed = 0 := by
  have hreset :
      (resetCountersIfNeeded s now).dailyPosts = 0 ∧
      (resetCountersIfNeeded s now).dailyPostsUsed = 0 ∧
      (resetCountersIfNeeded s now).dailyRepliesUsed = 0 := by
    simp only [resetCountersIfNeeded]
    split_ifs <;> simp_all
  obtain ⟨h1, h2, h3⟩ := hreset
  have hpost : (postTweet s now true).2 = resetCountersIfNeeded s now := by
    simp only [postTweet]
    split_ifs <;> rfl
  exact ⟨h1, h2, h3, by rw [hpost]; exact h1, by rw [hpost]; exact h2,
    by rw [hpost]; exact h3⟩

/-- Witness for the amended C5: a service whose counters were last reset on
January 1 with nonzero daily counters, checked on January 2, reads all daily
counters as zero at `postTweet`'s check. -/
theorem boundary_reset_zeroes_daily_counters_witness :
    (resetCountersIfNeeded
      { initialQuotaState ⟨2025, 0, 1⟩ with
          dailyPosts := 4, dailyPostsUsed := 9, dailyRepliesUsed := 11 }
      ⟨2025, 0, 2⟩).dailyPosts = 0 ∧
    (resetCountersIfNeeded
      { initialQuotaState ⟨2025, 0, 1⟩ with
          dailyPosts := 4, dailyPostsUsed := 9, dailyRepliesUsed := 11 }
      ⟨2025, 0, 2⟩).dailyPostsUsed = 0 ∧
    (resetCountersIfNeeded
      { initialQuotaState ⟨2025, 0, 1⟩ with
          dailyPosts := 4, dailyPostsUsed := 9, dailyRepliesUsed := 11 }
      ⟨2025, 0, 2⟩).dailyRepliesUsed = 0 := by
  have h := boundary_reset_zeroes_daily_counters
    { initialQuotaState ⟨2025, 0, 1⟩ with
        dailyPosts := 4, dailyPostsUsed := 9, dailyRepliesUsed := 11 }
    ⟨2025, 0, 2⟩ (by decide)
  exact ⟨h.1, h.2.1, h.2.2.1⟩

/-- Claim C9: a `postTweet` call within the current calendar day (same
day-of-month and month as the stored resets) leaves the whole quota state
unchanged — in particular `dailyPosts` and `dailyPostsUsed` hold the same
values after the call as before it — and consequently any number `n` of
successful same-day `postTweet` calls starting from zeroed counters (with a
positive daily limit and positive post cap, as configured) all succeed and
never trip the daily post limit or the post-ratio cap. -/
theorem postTweet_increments_no_daily_counter
    (s : QuotaState) (now : SDate) (apiOk : Bool) (n : Nat)
    (hday : now.day = s.lastDailyReset.day)
    (hmonth : now.month = s.lastMonthlyReset.month) :
    (postTweet s now apiOk).2 = s ∧
    (s.dailyPosts = 0 → s.dailyPostsUsed = 0 → 0 < s.dailyPostLimit →
      0 < maxDailyPosts s →
      (∀ o ∈ (iteratePostTweet now n s).1, o = QuotaOutcome.succeeded) ∧
      (iteratePostTweet now n s).2 = s) := by
  have hid : resetCountersIfNeeded s now = s :=
    resetCounters_sameDayMonth s now hday hmonth
  have hframe : ∀ b, (postTweet s now b).2 = s := by
    intro b
    simp only [postTweet, hid]
    split_ifs <;> rfl
  refine ⟨hframe apiOk, ?_⟩
  intro h0 h0u hlim hcap
  have hstep : postTweet s now true = (QuotaOutcome.succeeded, s) := by
    have g1 : ¬ s.dailyPosts ≥ s.dailyPostLimit := by omega
    have g2 : ¬ s.dailyPostsUsed ≥ maxDailyPosts s := by omega
    simp only [postTweet, hid]
    simp [g1, g2]
  induction n with
  | zero => exact ⟨by intro o ho; simp [iteratePostTweet] at ho, rfl⟩
  | succ n ih =>
      obtain ⟨ih1, ih2⟩ := ih
      constructor
      · intro o ho
        simp only [iteratePostTweet, hstep] at ho
        rcases List.mem_cons.mp ho with h | h
        · exact h
        · exact ih1 o h
      · simp only [iteratePostTweet, hstep]
        exact ih2

/-- Witness for C9: five successful same-day `postTweet` calls from the
freshly constructed service change nothing and are all accepted. -/
theorem postTweet_increments_no_daily_counter_witness :
    (postTweet (initialQuotaState ⟨2025, 0, 15⟩) ⟨2025, 0, 15⟩ true).2 =
      initialQuotaState ⟨2025, 0, 15⟩ ∧
    (∀ o ∈ (iteratePostTweet ⟨2025, 0, 15⟩ 5
        (initialQuotaState ⟨2025, 0, 15⟩)).1, o = QuotaOutcome.succeeded) ∧
    (iteratePostTweet ⟨2025, 0, 15⟩ 5 (initialQuotaState ⟨2025, 0, 15⟩)).2 =
      initialQuotaState ⟨2025, 0, 15⟩ := by
  have h := postTweet_increments_no_daily_counter
    (initialQuotaState ⟨2025, 0, 15⟩) ⟨2025, 0, 15⟩ true 5 rfl rfl
  have h2 := h.2 rfl rfl (by decide) (by decide)
  exact ⟨h.1, h2.1, h2.2⟩

/-- Claim C10: `resetCountersIfNeeded` zeroes the daily counters exactly when
the current day-of-month differs from the stored one (keeping them otherwise),
and zeroes the monthly read counter exactly when the current month number
differs from the stored one (keeping it otherwise); in particular a check
exactly one calendar month after the last daily reset (same day-of-month)
leaves the daily counters unreset, and a check in the same month of a later
year leaves the monthly counter unreset.  The last two conjuncts instantiate
those consequences at concrete dates. -/
theorem resetCountersIfNeeded_boundary_characterization
    (s : QuotaState) (now : SDate) :
    (now.day ≠ s.lastDailyReset.day →
      (resetCountersIfNeeded s now).dailyPosts = 0 ∧
      (resetCountersIfNeeded s now).dailyPostsUsed = 0 ∧
      (resetCountersIfNeeded s now).dailyRepliesUsed = 0 ∧
      (resetCountersIfNeeded s now).lastDailyReset = now) ∧
    (now.day = s.lastDailyReset.day →
      (resetCountersIfNeeded s now).dailyPosts = s.dailyPosts ∧
      (resetCountersIfNeeded s now).dailyPostsUsed = s.dailyPostsUsed ∧
      (resetCountersIfNeeded s now).dailyRepliesUsed = s.dailyRepliesUsed ∧
      (resetCountersIfNeeded s now).lastDailyReset = s.lastDailyReset) ∧
    (now.month ≠ s.lastMonthlyReset.month →
      (resetCountersIfNeeded s now).monthlyReads = 0 ∧
      (resetCountersIfNeeded s now).lastMonthlyReset = now) ∧
    (now.month = s.lastMonthlyReset.month →
      (resetCountersIfNeeded s now).monthlyReads = s.monthlyReads ∧
      (resetCountersIfNeeded s now).lastMonthlyReset = s.lastMonthlyReset) ∧
    (resetCountersIfNeeded
      { initialQuotaState ⟨2025, 0, 15⟩ with
          dailyPosts := 4, dailyPostsUsed := 5, dailyRepliesUsed := 6 }
      ⟨2025, 1, 15⟩).dailyPostsUsed = 5 ∧
    (resetCountersIfNeeded
      { initialQuotaState ⟨2025, 3, 10⟩ with monthlyReads := 7 }
      ⟨2026, 3, 10⟩).monthlyReads = 7 := by
  refine ⟨?_, ?_, ?_, ?_, by decide, by decide⟩ <;>
    · intro h
      simp only [resetCountersIfNeeded]
      split_ifs <;> simp_all

/-- Witness for C10, exercising both implications with hypotheses: on a
day-of-month change the daily counters zero out, and on a same-month check
the monthly counter is kept. -/
theorem resetCountersIfNeeded_boundary_characterization_witness :
    (resetCountersIfNeeded
      { initialQuotaState ⟨2025, 0, 1⟩ with
          dailyPosts := 8, monthlyReads := 9 } ⟨2025, 0, 2⟩).dailyPosts = 0 ∧
    (resetCountersIfNeeded
      { initialQuotaState ⟨2025, 0, 1⟩ with
          dailyPosts := 8, monthlyReads := 9 } ⟨2025, 0, 2⟩).monthlyReads = 9 := by
  have h := resetCountersIfNeeded_boundary_characterization
    { initialQuotaState ⟨2025, 0, 1⟩ with dailyPosts := 8, monthlyReads := 9 }
    ⟨2025, 0, 2⟩
  exact ⟨(h.1 (by decide)).1, (h.2.2.2.1 (by decide)).1⟩

/-! ## Claim theorems: retry execution -/

/-- Claim C2, code behaviour at the failing input: when every attempt throws
a throttling error with no reset metadata (`code === 429`, no
`error.rateLimit`, no response headers) and `maxRetries = 3`, `retryFetch`
makes exactly ONE attempt and raises the `TypeError` caused by reading the
never-initialized `this.rateLimitManager` property — not three attempts and
not a rate-limit-exceeded error. -/
theorem retryFetch_bare_throttle_typeError_after_one_attempt :
    retryFetch (fun _ => FetchOutcome.rateLimitedBare false) 3 0 =
      ([0], RetryResult.raised JsRaised.typeErrorUndefinedRateLimitManager) ∧
    (retryFetch (fun _ => FetchOutcome.rateLimitedBare false) 3 0).1.length = 1 := by
  constructor <;> rfl

/-- Claim C8: when the first attempt throws a throttling error whose reset
time is `now + 2000` ms (the code reads `reset` in epoch seconds and
multiplies by 1000) and attempts remain, the second attempt starts exactly at
`reset + 1000` ms — the reset plus the fixed 1-second buffer, so never before
`now + 2000 + 1000` — and when that second attempt succeeds, `retryFetch`
returns its value. -/
theorem retryFetch_waits_reset_plus_buffer
    (t0 resetSec : Int) (v : Nat) (script : Nat → FetchOutcome)
    (hs0 : script 0 = FetchOutcome.rateLimited resetSec)
    (hs1 : script 1 = FetchOutcome.ok v)
    (hreset : resetSec * 1000 = t0 + 2000) :
    retryFetch script 3 t0 = ([t0, t0 + 2000 + 1000], RetryResult.success v) := by
  have hwait : resetSec * 1000 - t0 + 1000 = 3000 := by omega
  simp only [retryFetch, retryFetchGo, hs0, hs1, hwait]
  norm_num
  omega

/-- Witness for C8: with the clock starting at `0`, a reset at epoch second
`2` (i.e. `2000` ms `= 0 + 2000`), and a second attempt returning `42`, the
attempts run at times `0` and `3000` and the call returns `42`. -/
theorem retryFetch_waits_reset_plus_buffer_witness :
    retryFetch
      (fun i => if i = 0 then FetchOutcome.rateLimited 2 else FetchOutcome.ok 42)
      3 0 = ([0, 3000], RetryResult.success 42) :=
  retryFetch_waits_reset_plus_buffer 0 2 42
    (fun i => if i = 0 then FetchOutcome.rateLimited 2 else FetchOutcome.ok 42)
    (by decide) (by decide) (by decide)

/-! ## Claim theorems: polling -/

/-- Claim C7: when the fetch step of a poll cycle throws a rate-limit error
whose reset is `now + 10000` ms, the delay scheduled before the next cycle is
exactly `10000` ms — the time remaining until the reset — and not the default
interval of `60000` ms. -/
theorem poll_reset_time_sets_next_delay
    (now resetSec : Int)
    (hreset : resetSec * 1000 = now + 10000) (hnz : resetSec ≠ 0) :
    pollNextTimeout (some ⟨some resetSec⟩) now = 10000 ∧
    pollNextTimeout none now = 60000 ∧ (10000 : Int) ≠ 60000 := by
  refine ⟨?_, rfl, by norm_num⟩
  simp only [pollNextTimeout, if_pos hnz]
  omega

/-- Witness for C7: clock at `0`, reset at epoch second `10`: the scheduled
delay is `10000` ms, the no-error delay `60000` ms. -/
theorem poll_reset_time_sets_next_delay_witness :
    pollNextTimeout (some ⟨some 10⟩) 0 = 10000 ∧
    pollNextTimeout none 0 = 60000 ∧ (10000 : Int) ≠ 60000 :=
  poll_reset_time_sets_next_delay 0 10 (by decide) (by decide)

/-- Claim C6: over consecutive throttled `setupPolling` cycles (each error
carrying `code === 429` and no explicit reset), every scheduled interval
equals `min(currentInterval * 2, 3600000)` — the doubling-with-cap recurrence
— and never exceeds the cap of `3600000` ms; with the constructor's interval
of `3600000` ms every throttled cycle schedules exactly the cap. -/
theorem throttled_cycles_double_interval_capped (k : Nat) :
    throttledScheduleSeq 0 = min (servicePollingInterval * 2) 3600000 ∧
    throttledScheduleSeq (k + 1) = min (throttledScheduleSeq k * 2) 3600000 ∧
    throttledScheduleSeq k ≤ 3600000 ∧
    throttledScheduleSeq k = 3600000 := by
  refine ⟨rfl, ?_, ?_, ?_⟩ <;>
    simp [throttledScheduleSeq, setupPollingNextInterval, servicePollingInterval]

/-- Claim C3, code behaviour: xHandler.js's `setupPolling` never reaches its
`setTimeout` call and raises a `ReferenceError` on every cycle — including a
fully successful one — because the `finally` block reads the identifier
`error`, which is only declared as the `catch` parameter and is out of scope
there.  So the rescheduling step does not always execute and an error does
escape the polling loop; by contrast the TwitterService.js variant, which
declares `let error = null` at function scope, always schedules a next poll
and lets no `ReferenceError` escape. -/
theorem setupPollingXHandler_never_reschedules (errCode : Option Int) :
    (setupPollingXHandler errCode).scheduledDelay = none ∧
    (setupPollingXHandler errCode).escapedReferenceError = true ∧
    (setupPollingTwitterService errCode).scheduledDelay =
      some (setupPollingNextInterval servicePollingInterval errCode) ∧
    (setupPollingTwitterService errCode).escapedReferenceError = false := by
  exact ⟨rfl, rfl, rfl, rfl⟩

/-! ## Claim theorem: endpoint queue -/

/-- Claim C1, code behaviour at the failing input: submitting two operations
back-to-back to the same endpoint category (`tweet`), the second submission
awaits the same promise as the first — the `Promise.resolve()` placeholder,
which is already settled at submission time — and NOT the first operation's
chain promise, because `executeWithRateLimit` never stores the chained
promise back into `this.queues`.  Hence the second task's start is not gated
on the first task's settlement and the two executions may overlap, contrary
to the claimed strict serialization per category. -/
theorem executeWithRateLimit_second_submission_ungated :
    (submitEWRL (submitEWRL emptyEQState "tweet").2 "tweet").1.awaited =
      (submitEWRL emptyEQState "tweet").1.awaited ∧
    (submitEWRL (submitEWRL emptyEQState "tweet").2 "tweet").1.awaited ∈
      (submitEWRL (submitEWRL emptyEQState "tweet").2 "tweet").2.settledNow ∧
    (submitEWRL (submitEWRL emptyEQState "tweet").2 "tweet").1.awaited ≠
      (submitEWRL emptyEQState "tweet").1.chained := by
  refine ⟨rfl, ?_, by decide⟩
  simp [submitEWRL, emptyEQState, eqLookup]
